import Mathlib

/-!
Verification of the 1-D ResNet / VGG19 model builders
(`keras_applications/resnet_1d_common.py`, `keras_applications/vgg19_1d.py`).

The builders are shallowly embedded: every Keras layer-constructor call is
modelled as a `Layer` value, tensors are term graphs (`Tensor`), and each
builder returns the pair of its output tensor and the ordered trace of the
layers it created.  The trace models program order of layer creation, which
is exactly the "generated op sequence" the specification talks about; since
shortcut and main branches share subterms of the tensor graph, counting is
always done on the trace, never on the term tree.

External collaborators (the Keras backend, `os.path.exists`,
`backend.is_keras_tensor`, `_obtain_input_shape_1d`) are passed in as
explicit parameters: `cl` is `image_data_format() == channels_last`,
`pathExists` models `os.path.exists`, `isKerasTensor` models
`backend.is_keras_tensor`.  Shape normalisation (`_obtain_input_shape_1d`)
lives outside the two source files and is irrelevant to every claim, so it
is not modelled.  Batch-normalisation epsilon (a float constant, identical
at every call site) is elided.  A Python exception is modelled by returning
the error message together with an empty creation trace: nothing is built
on the error path, exactly as in the source.
-/

/-- One Keras layer-construction event, as performed by the two source
files.  `conv1d` carries filters, kernel size, stride, padding mode,
`use_bias`, fused activation, kernel initializer and optional name. -/
inductive Layer where
  | conv1d (filters kernel_size stride : Nat) (padding : String) (use_bias : Bool)
      (activation : Option String) (init : String) (name : Option String)
  | batch_norm (axis : Nat) (name : String)
  | activation (kind : String) (name : String)
  | zero_padding (amount : Nat) (name : Option String)
  | max_pooling (pool_size stride : Nat) (name : Option String)
  | global_average_pooling (name : Option String)
  | global_max_pooling (name : Option String)
  | dense (units : Nat) (activation : Option String) (name : String)
  | flatten (name : String)
  | add_layer (name : String)
  | input_layer
deriving DecidableEq

/-- A tensor is a node of the computation graph: the graph input, a
single-input layer application, or a two-input layer application (Add). -/
inductive Tensor where
  | graph_input
  | app1 (l : Layer) (x : Tensor)
  | app2 (l : Layer) (a b : Tensor)
deriving DecidableEq

/-- `bn_axis = 2 if backend.image_data_format() == 'channels_last' else 1`. -/
def bn_axis (cl : Bool) : Nat := if cl then 2 else 1

/-- The (optional) name a layer was given at construction. -/
def layerName : Layer → Option String
  | .conv1d _ _ _ _ _ _ _ nm => nm
  | .batch_norm _ nm => some nm
  | .activation _ nm => some nm
  | .zero_padding _ nm => nm
  | .max_pooling _ _ nm => nm
  | .global_average_pooling nm => nm
  | .global_max_pooling nm => nm
  | .dense _ _ nm => some nm
  | .flatten nm => some nm
  | .add_layer nm => some nm
  | .input_layer => none

/-- Is the layer an Add layer?  Every residual block of every variant
creates exactly one Add layer, so Add layers on the trace count residual
blocks. -/
def isAdd : Layer → Bool
  | .add_layer _ => true
  | _ => false

/-- Is the layer a global average pooling layer? -/
def isGlobalAvgPool : Layer → Bool
  | .global_average_pooling _ => true
  | _ => false

/-- Is the layer a Flatten layer? -/
def isFlatten : Layer → Bool
  | .flatten _ => true
  | _ => false

/-- Python `range(a, b)`. -/
def pyRange (a b : Nat) : List Nat := (List.range (b - a)).map (fun k => a + k)

/-- `block0` of `resnet_1d_common.py` (basic residual block, two 3x3
convolutions, post-activation).  Returns the output tensor and the trace of
created layers in program order. -/
def block0 (cl : Bool) (x : Tensor) (filters kernel_size stride : Nat)
    (conv_shortcut : Bool) (ki : String) (name : String) : Tensor × List Layer :=
  let ax := bn_axis cl
  let c0 := Layer.conv1d filters 1 stride "SAME" true none ki (some (name ++ "_0_conv"))
  let b0 := Layer.batch_norm ax (name ++ "_0_bn")
  let shortcut := if conv_shortcut then Tensor.app1 b0 (Tensor.app1 c0 x) else x
  let c1 := Layer.conv1d filters kernel_size stride "SAME" true none ki (some (name ++ "_1_conv"))
  let b1 := Layer.batch_norm ax (name ++ "_1_bn")
  let r1 := Layer.activation "relu" (name ++ "_1_relu")
  let c2 := Layer.conv1d filters kernel_size 1 "SAME" true none ki (some (name ++ "_2_conv"))
  let b2 := Layer.batch_norm ax (name ++ "_2_bn")
  let ad := Layer.add_layer (name ++ "_add")
  let ou := Layer.activation "relu" (name ++ "_out")
  let main := Tensor.app1 b2 (Tensor.app1 c2 (Tensor.app1 r1 (Tensor.app1 b1 (Tensor.app1 c1 x))))
  (Tensor.app1 ou (Tensor.app2 ad shortcut main),
   (if conv_shortcut then [c0, b0] else []) ++ [c1, b1, r1, c2, b2, ad, ou])

/-- `block1` of `resnet_1d_common.py` (bottleneck residual block, three
convolutions, post-activation, output width `4 * filters`). -/
def block1 (cl : Bool) (x : Tensor) (filters kernel_size stride : Nat)
    (conv_shortcut : Bool) (ki : String) (name : String) : Tensor × List Layer :=
  let ax := bn_axis cl
  let c0 := Layer.conv1d (4 * filters) 1 stride "valid" true none ki (some (name ++ "_0_conv"))
  let b0 := Layer.batch_norm ax (name ++ "_0_bn")
  let shortcut := if conv_shortcut then Tensor.app1 b0 (Tensor.app1 c0 x) else x
  let c1 := Layer.conv1d filters 1 stride "valid" true none ki (some (name ++ "_1_conv"))
  let b1 := Layer.batch_norm ax (name ++ "_1_bn")
  let r1 := Layer.activation "relu" (name ++ "_1_relu")
  let c2 := Layer.conv1d filters kernel_size 1 "SAME" true none ki (some (name ++ "_2_conv"))
  let b2 := Layer.batch_norm ax (name ++ "_2_bn")
  let r2 := Layer.activation "relu" (name ++ "_2_relu")
  let c3 := Layer.conv1d (4 * filters) 1 1 "valid" true none ki (some (name ++ "_3_conv"))
  let b3 := Layer.batch_norm ax (name ++ "_3_bn")
  let ad := Layer.add_layer (name ++ "_add")
  let ou := Layer.activation "relu" (name ++ "_out")
  let main := Tensor.app1 b3 (Tensor.app1 c3 (Tensor.app1 r2 (Tensor.app1 b2 (Tensor.app1 c2
    (Tensor.app1 r1 (Tensor.app1 b1 (Tensor.app1 c1 x)))))))
  (Tensor.app1 ou (Tensor.app2 ad shortcut main),
   (if conv_shortcut then [c0, b0] else []) ++ [c1, b1, r1, c2, b2, r2, c3, b3, ad, ou])

/-- `block2` of `resnet_1d_common.py` (pre-activation bottleneck block).
The shortcut reads `preact` when projecting, otherwise the raw input
(max-pooled when `stride > 1`); the block ends with the Add layer, with no
activation after it. -/
def block2 (cl : Bool) (x : Tensor) (filters kernel_size stride : Nat)
    (conv_shortcut : Bool) (ki : String) (name : String) : Tensor × List Layer :=
  let ax := bn_axis cl
  let pb := Layer.batch_norm ax (name ++ "_preact_bn")
  let pr := Layer.activation "relu" (name ++ "_preact_relu")
  let preact := Tensor.app1 pr (Tensor.app1 pb x)
  let c0 := Layer.conv1d (4 * filters) 1 stride "valid" true none ki (some (name ++ "_0_conv"))
  let mp := Layer.max_pooling 1 stride none
  let shortcut :=
    if conv_shortcut then Tensor.app1 c0 preact
    else if stride > 1 then Tensor.app1 mp x else x
  let c1 := Layer.conv1d filters 1 1 "valid" false none ki (some (name ++ "_1_conv"))
  let b1 := Layer.batch_norm ax (name ++ "_1_bn")
  let r1 := Layer.activation "relu" (name ++ "_1_relu")
  let zp := Layer.zero_padding 0 (some (name ++ "_2_pad"))
  let c2 := Layer.conv1d filters kernel_size stride "valid" false none ki (some (name ++ "_2_conv"))
  let b2 := Layer.batch_norm ax (name ++ "_2_bn")
  let r2 := Layer.activation "relu" (name ++ "_2_relu")
  let c3 := Layer.conv1d (4 * filters) 1 1 "valid" true none ki (some (name ++ "_3_conv"))
  let ou := Layer.add_layer (name ++ "_out")
  let main := Tensor.app1 c3 (Tensor.app1 r2 (Tensor.app1 b2 (Tensor.app1 c2 (Tensor.app1 zp
    (Tensor.app1 r1 (Tensor.app1 b1 (Tensor.app1 c1 preact)))))))
  (Tensor.app2 ou shortcut main,
   [pb, pr] ++ (if conv_shortcut then [c0] else if stride > 1 then [mp] else []) ++
   [c1, b1, r1, zp, c2, b2, r2, c3, ou])

/-- `stack0`: first block with `stride1` and a convolution shortcut, then
blocks `2 .. blocks` with stride 1 and identity shortcuts. -/
def stack0 (cl : Bool) (x : Tensor) (filters blocks stride1 : Nat)
    (ki : String) (name : String) : Tensor × List Layer :=
  (pyRange 2 (blocks + 1)).foldl
    (fun acc i =>
      ((block0 cl acc.1 filters 3 1 false ki (name ++ "_block" ++ toString i)).1,
       acc.2 ++ (block0 cl acc.1 filters 3 1 false ki (name ++ "_block" ++ toString i)).2))
    (block0 cl x filters 3 stride1 true ki (name ++ "_block1"))

/-- `stack1`: same shape as `stack0`, over bottleneck blocks. -/
def stack1 (cl : Bool) (x : Tensor) (filters blocks stride1 : Nat)
    (ki : String) (name : String) : Tensor × List Layer :=
  (pyRange 2 (blocks + 1)).foldl
    (fun acc i =>
      ((block1 cl acc.1 filters 3 1 false ki (name ++ "_block" ++ toString i)).1,
       acc.2 ++ (block1 cl acc.1 filters 3 1 false ki (name ++ "_block" ++ toString i)).2))
    (block1 cl x filters 3 stride1 true ki (name ++ "_block1"))

/-- `stack2`: first block with a convolution shortcut (stride 1), middle
blocks `2 .. blocks-1` with all defaults (note the source does not forward
`kernel_initializer` to them), and a final block carrying `stride1` and
named `_block<blocks>`. -/
def stack2 (cl : Bool) (x : Tensor) (filters blocks stride1 : Nat)
    (ki : String) (name : String) : Tensor × List Layer :=
  let acc2 := (pyRange 2 blocks).foldl
    (fun acc i =>
      ((block2 cl acc.1 filters 3 1 false "he_uniform" (name ++ "_block" ++ toString i)).1,
       acc.2 ++ (block2 cl acc.1 filters 3 1 false "he_uniform" (name ++ "_block" ++ toString i)).2))
    (block2 cl x filters 3 1 true ki (name ++ "_block1"))
  ((block2 cl acc2.1 filters 3 stride1 false ki (name ++ "_block" ++ toString blocks)).1,
   acc2.2 ++ (block2 cl acc2.1 filters 3 stride1 false ki (name ++ "_block" ++ toString blocks)).2)

/-- The error message raised by `ResNet` for an invalid `weights` argument. -/
def resnet_weights_error : String :=
  "The `weights` argument should be either `None` (random initialization), or the path to the weights file to be loaded."

/-- The error message raised by `VGG19` for an invalid `weights` argument
(the source concatenates its pieces without a space after the comma). -/
def vgg19_weights_error : String :=
  "The `weights` argument should be either `None` (random initialization),or the path to the weights file to be loaded."

/-- `weights is None or os.path.exists(weights)` with `os.path.exists`
passed in as `pathExists`. -/
def weights_ok (pathExists : String → Bool) : Option String → Bool
  | none => true
  | some p => pathExists p

/-- Resolution of `img_input` from the optional `input_tensor`: a fresh
`Input` node when absent, an `Input` wrapper when the supplied tensor is
not a Keras tensor, otherwise the tensor itself (no layer created). -/
def resolveInput (isKerasTensor : Tensor → Bool) : Option Tensor → Tensor × List Layer
  | none => (Tensor.graph_input, [Layer.input_layer])
  | some t =>
      if isKerasTensor t = false then (Tensor.app1 Layer.input_layer t, [Layer.input_layer])
      else (t, [])

/-- `ResNet` of `resnet_1d_common.py`: weights validation, input
resolution, stem, `stack_fn`, optional pre-activation tail, head.  Returns
the creation trace together with either the weights error (trace empty —
the exception fires before any node is built) or the output tensor.
Model assembly and weight loading are external and create no layers. -/
def ResNet (stack_fn : Tensor → Tensor × List Layer) (preact use_bias : Bool)
    (model_name : String) (include_top : Bool) (weights : Option String)
    (input_tensor : Option Tensor) (pooling : Option String) (classes : Nat)
    (ki : String) (pathExists : String → Bool) (isKerasTensor : Tensor → Bool)
    (cl : Bool) : List Layer × Except String Tensor :=
  if weights_ok pathExists weights = false then
    ([], Except.error resnet_weights_error)
  else
    let inp := resolveInput isKerasTensor input_tensor
    let ax := bn_axis cl
    let zp1 := Layer.zero_padding 3 (some "conv1_pad")
    let cv1 := Layer.conv1d 64 7 2 "valid" use_bias none ki (some "conv1_conv")
    let x1 := Tensor.app1 cv1 (Tensor.app1 zp1 inp.1)
    let s1 :=
      if preact = false then
        (Tensor.app1 (Layer.activation "relu" "conv1_relu")
           (Tensor.app1 (Layer.batch_norm ax "conv1_bn") x1),
         [Layer.batch_norm ax "conv1_bn", Layer.activation "relu" "conv1_relu"])
      else (x1, ([] : List Layer))
    let zp2 := Layer.zero_padding 1 (some "pool1_pad")
    let mp1 := Layer.max_pooling 3 2 (some "pool1_pool")
    let x2 := Tensor.app1 mp1 (Tensor.app1 zp2 s1.1)
    let s2 := stack_fn x2
    let s3 :=
      if preact = true then
        (Tensor.app1 (Layer.activation "relu" "post_relu")
           (Tensor.app1 (Layer.batch_norm ax "post_bn") s2.1),
         [Layer.batch_norm ax "post_bn", Layer.activation "relu" "post_relu"])
      else (s2.1, ([] : List Layer))
    let s4 :=
      if include_top then
        (Tensor.app1 (Layer.dense classes (some "softmax") "probs")
           (Tensor.app1 (Layer.global_average_pooling (some "avg_pool")) s3.1),
         [Layer.global_average_pooling (some "avg_pool"),
          Layer.dense classes (some "softmax") "probs"])
      else if pooling = some "avg" then
        (Tensor.app1 (Layer.global_average_pooling (some "avg_pool")) s3.1,
         [Layer.global_average_pooling (some "avg_pool")])
      else if pooling = some "max" then
        (Tensor.app1 (Layer.global_max_pooling (some "max_pool")) s3.1,
         [Layer.global_max_pooling (some "max_pool")])
      else (s3.1, ([] : List Layer))
    (inp.2 ++ [zp1, cv1] ++ s1.2 ++ [zp2, mp1] ++ s2.2 ++ s3.2 ++ s4.2, Except.ok s4.1)

/-- The linear convolution/pooling backbone of `vgg19_1d.py` (blocks 1-5),
in source order.  Keras `Conv1D` defaults apply: stride 1, bias on,
`glorot_uniform` initializer; every convolution carries a fused relu. -/
def vgg19_backbone : List Layer :=
  [Layer.conv1d 64 3 1 "same" true (some "relu") "glorot_uniform" (some "block1_conv1"),
   Layer.conv1d 64 3 1 "same" true (some "relu") "glorot_uniform" (some "block1_conv2"),
   Layer.max_pooling 2 2 (some "block1_pool"),
   Layer.conv1d 128 3 1 "same" true (some "relu") "glorot_uniform" (some "block2_conv1"),
   Layer.conv1d 128 3 1 "same" true (some "relu") "glorot_uniform" (some "block2_conv2"),
   Layer.max_pooling 2 2 (some "block2_pool"),
   Layer.conv1d 256 3 1 "same" true (some "relu") "glorot_uniform" (some "block3_conv1"),
   Layer.conv1d 256 3 1 "same" true (some "relu") "glorot_uniform" (some "block3_conv2"),
   Layer.conv1d 256 3 1 "same" true (some "relu") "glorot_uniform" (some "block3_conv3"),
   Layer.conv1d 256 3 1 "same" true (some "relu") "glorot_uniform" (some "block3_conv4"),
   Layer.max_pooling 2 2 (some "block3_pool"),
   Layer.conv1d 512 3 1 "same" true (some "relu") "glorot_uniform" (some "block4_conv1"),
   Layer.conv1d 512 3 1 "same" true (some "relu") "glorot_uniform" (some "block4_conv2"),
   Layer.conv1d 512 3 1 "same" true (some "relu") "glorot_uniform" (some "block4_conv3"),
   Layer.conv1d 512 3 1 "same" true (some "relu") "glorot_uniform" (some "block4_conv4"),
   Layer.max_pooling 2 2 (some "block4_pool"),
   Layer.conv1d 512 3 1 "same" true (some "relu") "glorot_uniform" (some "block5_conv1"),
   Layer.conv1d 512 3 1 "same" true (some "relu") "glorot_uniform" (some "block5_conv2"),
   Layer.conv1d 512 3 1 "same" true (some "relu") "glorot_uniform" (some "block5_conv3"),
   Layer.conv1d 512 3 1 "same" true (some "relu") "glorot_uniform" (some "block5_conv4"),
   Layer.max_pooling 2 2 (some "block5_pool")]

/-- `VGG19` of `vgg19_1d.py`: weights validation, input resolution, the
linear backbone, and a head that is flatten plus three dense layers under
`include_top`, otherwise the optional (unnamed) global pooling. -/
def VGG19 (include_top : Bool) (weights : Option String) (input_tensor : Option Tensor)
    (pooling : Option String) (classes : Nat)
    (pathExists : String → Bool) (isKerasTensor : Tensor → Bool) :
    List Layer × Except String Tensor :=
  if weights_ok pathExists weights = false then
    ([], Except.error vgg19_weights_error)
  else
    let inp := resolveInput isKerasTensor input_tensor
    let xb := vgg19_backbone.foldl (fun t l => Tensor.app1 l t) inp.1
    let s4 :=
      if include_top then
        (Tensor.app1 (Layer.dense classes (some "softmax") "predictions")
           (Tensor.app1 (Layer.dense 4096 (some "relu") "fc2")
             (Tensor.app1 (Layer.dense 4096 (some "relu") "fc1")
               (Tensor.app1 (Layer.flatten "flatten") xb))),
         [Layer.flatten "flatten", Layer.dense 4096 (some "relu") "fc1",
          Layer.dense 4096 (some "relu") "fc2",
          Layer.dense classes (some "softmax") "predictions"])
      else if pooling = some "avg" then
        (Tensor.app1 (Layer.global_average_pooling none) xb,
         [Layer.global_average_pooling none])
      else if pooling = some "max" then
        (Tensor.app1 (Layer.global_max_pooling none) xb,
         [Layer.global_max_pooling none])
      else (xb, ([] : List Layer))
    (inp.2 ++ vgg19_backbone ++ s4.2, Except.ok s4.1)

/-- The `stack_fn` closure of `ResNet18`. -/
def stack_fn_resnet18 (ki : String) (cl : Bool) (x : Tensor) : Tensor × List Layer :=
  let s1 := stack0 cl x 64 2 1 ki "conv2"
  let s2 := stack0 cl s1.1 128 2 2 ki "conv3"
  let s3 := stack0 cl s2.1 256 2 2 ki "conv4"
  let s4 := stack0 cl s3.1 512 2 2 ki "conv5"
  (s4.1, s1.2 ++ s2.2 ++ s3.2 ++ s4.2)

/-- The `stack_fn` closure of `ResNet34`. -/
def stack_fn_resnet34 (ki : String) (cl : Bool) (x : Tensor) : Tensor × List Layer :=
  let s1 := stack0 cl x 64 3 1 ki "conv2"
  let s2 := stack0 cl s1.1 128 4 2 ki "conv3"
  let s3 := stack0 cl s2.1 256 6 2 ki "conv4"
  let s4 := stack0 cl s3.1 512 3 2 ki "conv5"
  (s4.1, s1.2 ++ s2.2 ++ s3.2 ++ s4.2)

/-- The `stack_fn` closure of `ResNet50`. -/
def stack_fn_resnet50 (ki : String) (cl : Bool) (x : Tensor) : Tensor × List Layer :=
  let s1 := stack1 cl x 64 3 1 ki "conv2"
  let s2 := stack1 cl s1.1 128 4 2 ki "conv3"
  let s3 := stack1 cl s2.1 256 6 2 ki "conv4"
  let s4 := stack1 cl s3.1 512 3 2 ki "conv5"
  (s4.1, s1.2 ++ s2.2 ++ s3.2 ++ s4.2)

/-- The `stack_fn` closure of `ResNet101`. -/
def stack_fn_resnet101 (ki : String) (cl : Bool) (x : Tensor) : Tensor × List Layer :=
  let s1 := stack1 cl x 64 3 1 ki "conv2"
  let s2 := stack1 cl s1.1 128 4 2 ki "conv3"
  let s3 := stack1 cl s2.1 256 23 2 ki "conv4"
  let s4 := stack1 cl s3.1 512 3 2 ki "conv5"
  (s4.1, s1.2 ++ s2.2 ++ s3.2 ++ s4.2)

/-- The `stack_fn` closure of `ResNet152`. -/
def stack_fn_resnet152 (ki : String) (cl : Bool) (x : Tensor) : Tensor × List Layer :=
  let s1 := stack1 cl x 64 3 1 ki "conv2"
  let s2 := stack1 cl s1.1 128 8 2 ki "conv3"
  let s3 := stack1 cl s2.1 256 36 2 ki "conv4"
  let s4 := stack1 cl s3.1 512 3 2 ki "conv5"
  (s4.1, s1.2 ++ s2.2 ++ s3.2 ++ s4.2)

/-- The `stack_fn` closure of `ResNet50V2`. -/
def stack_fn_resnet50v2 (ki : String) (cl : Bool) (x : Tensor) : Tensor × List Layer :=
  let s1 := stack2 cl x 64 3 2 ki "conv2"
  let s2 := stack2 cl s1.1 128 4 2 ki "conv3"
  let s3 := stack2 cl s2.1 256 6 2 ki "conv4"
  let s4 := stack2 cl s3.1 512 3 1 ki "conv5"
  (s4.1, s1.2 ++ s2.2 ++ s3.2 ++ s4.2)

/-- The `stack_fn` closure of `ResNet101V2`. -/
def stack_fn_resnet101v2 (ki : String) (cl : Bool) (x : Tensor) : Tensor × List Layer :=
  let s1 := stack2 cl x 64 3 2 ki "conv2"
  let s2 := stack2 cl s1.1 128 4 2 ki "conv3"
  let s3 := stack2 cl s2.1 256 23 2 ki "conv4"
  let s4 := stack2 cl s3.1 512 3 1 ki "conv5"
  (s4.1, s1.2 ++ s2.2 ++ s3.2 ++ s4.2)

/-- The `stack_fn` closure of `ResNet152V2`. -/
def stack_fn_resnet152v2 (ki : String) (cl : Bool) (x : Tensor) : Tensor × List Layer :=
  let s1 := stack2 cl x 64 3 2 ki "conv2"
  let s2 := stack2 cl s1.1 128 8 2 ki "conv3"
  let s3 := stack2 cl s2.1 256 36 2 ki "conv4"
  let s4 := stack2 cl s3.1 512 3 1 ki "conv5"
  (s4.1, s1.2 ++ s2.2 ++ s3.2 ++ s4.2)

/-- `ResNet18` entry point. -/
def ResNet18 (include_top : Bool) (weights : Option String) (input_tensor : Option Tensor)
    (pooling : Option String) (classes : Nat) (ki : String)
    (pathExists : String → Bool) (isKerasTensor : Tensor → Bool) (cl : Bool) :
    List Layer × Except String Tensor :=
  ResNet (stack_fn_resnet18 ki cl) false true "resnet18" include_top weights input_tensor
    pooling classes ki pathExists isKerasTensor cl

/-- `ResNet34` entry point. -/
def ResNet34 (include_top : Bool) (weights : Option String) (input_tensor : Option Tensor)
    (pooling : Option String) (classes : Nat) (ki : String)
    (pathExists : String → Bool) (isKerasTensor : Tensor → Bool) (cl : Bool) :
    List Layer × Except String Tensor :=
  ResNet (stack_fn_resnet34 ki cl) false true "resnet34" include_top weights input_tensor
    pooling classes ki pathExists isKerasTensor cl

/-- `ResNet50` entry point. -/
def ResNet50 (include_top : Bool) (weights : Option String) (input_tensor : Option Tensor)
    (pooling : Option String) (classes : Nat) (ki : String)
    (pathExists : String → Bool) (isKerasTensor : Tensor → Bool) (cl : Bool) :
    List Layer × Except String Tensor :=
  ResNet (stack_fn_resnet50 ki cl) false true "resnet50" include_top weights input_tensor
    pooling classes ki pathExists isKerasTensor cl

/-- `ResNet101` entry point. -/
def ResNet101 (include_top : Bool) (weights : Option String) (input_tensor : Option Tensor)
    (pooling : Option String) (classes : Nat) (ki : String)
    (pathExists : String → Bool) (isKerasTensor : Tensor → Bool) (cl : Bool) :
    List Layer × Except String Tensor :=
  ResNet (stack_fn_resnet101 ki cl) false true "resnet101" include_top weights input_tensor
    pooling classes ki pathExists isKerasTensor cl

/-- `ResNet152` entry point. -/
def ResNet152 (include_top : Bool) (weights : Option String) (input_tensor : Option Tensor)
    (pooling : Option String) (classes : Nat) (ki : String)
    (pathExists : String → Bool) (isKerasTensor : Tensor → Bool) (cl : Bool) :
    List Layer × Except String Tensor :=
  ResNet (stack_fn_resnet152 ki cl) false true "resnet152" include_top weights input_tensor
    pooling classes ki pathExists isKerasTensor cl

/-- `ResNet50V2` entry point. -/
def ResNet50V2 (include_top : Bool) (weights : Option String) (input_tensor : Option Tensor)
    (pooling : Option String) (classes : Nat) (ki : String)
    (pathExists : String → Bool) (isKerasTensor : Tensor → Bool) (cl : Bool) :
    List Layer × Except String Tensor :=
  ResNet (stack_fn_resnet50v2 ki cl) true true "resnet50v2" include_top weights input_tensor
    pooling classes ki pathExists isKerasTensor cl

/-- `ResNet101V2` entry point. -/
def ResNet101V2 (include_top : Bool) (weights : Option String) (input_tensor : Option Tensor)
    (pooling : Option String) (classes : Nat) (ki : String)
    (pathExists : String → Bool) (isKerasTensor : Tensor → Bool) (cl : Bool) :
    List Layer × Except String Tensor :=
  ResNet (stack_fn_resnet101v2 ki cl) true true "resnet101v2" include_top weights input_tensor
    pooling classes ki pathExists isKerasTensor cl

/-- `ResNet152V2` entry point. -/
def ResNet152V2 (include_top : Bool) (weights : Option String) (input_tensor : Option Tensor)
    (pooling : Option String) (classes : Nat) (ki : String)
    (pathExists : String → Bool) (isKerasTensor : Tensor → Bool) (cl : Bool) :
    List Layer × Except String Tensor :=
  ResNet (stack_fn_resnet152v2 ki cl) true true "resnet152v2" include_top weights input_tensor
    pooling classes ki pathExists isKerasTensor cl

/-- The parameters of one call the stack composers make to their block
function: stride, `conv_shortcut`, kernel initializer and block name. -/
structure BlockCall where
  stride : Nat
  conv_shortcut : Bool
  ki : String
  name : String
deriving DecidableEq

/-- Run a block function over a list of per-block call parameters,
accumulating the creation trace. -/
def runCalls (blockf : Tensor → BlockCall → Tensor × List Layer) :
    Tensor × List Layer → List BlockCall → Tensor × List Layer
  | acc, [] => acc
  | acc, c :: rest => runCalls blockf ((blockf acc.1 c).1, acc.2 ++ (blockf acc.1 c).2) rest

/-- The block-call sequence `stack0` makes: block 1 carries `stride1` and
the convolution shortcut, blocks `2 .. blocks` use stride 1 and identity. -/
def stack0Calls (blocks stride1 : Nat) (ki name : String) : List BlockCall :=
  ⟨stride1, true, ki, name ++ "_block1"⟩ ::
    (pyRange 2 (blocks + 1)).map (fun i => ⟨1, false, ki, name ++ "_block" ++ toString i⟩)

/-- The block-call sequence `stack1` makes (same pattern as `stack0`). -/
def stack1Calls (blocks stride1 : Nat) (ki name : String) : List BlockCall :=
  stack0Calls blocks stride1 ki name

/-- The block-call sequence `stack2` makes: block 1 carries the convolution
shortcut at stride 1, middle blocks use all defaults (including the default
initializer), and the final call carries `stride1` and is named
`_block<blocks>`. -/
def stack2Calls (blocks stride1 : Nat) (ki name : String) : List BlockCall :=
  (⟨1, true, ki, name ++ "_block1"⟩ ::
    (pyRange 2 blocks).map (fun i => ⟨1, false, "he_uniform", name ++ "_block" ++ toString i⟩))
  ++ [⟨stride1, false, ki, name ++ "_block" ++ toString blocks⟩]

/-- `block0` invoked with the parameters of one `BlockCall`
(kernel size is always the default 3 in the stack composers). -/
def callBlock0 (cl : Bool) (filters : Nat) (t : Tensor) (c : BlockCall) : Tensor × List Layer :=
  block0 cl t filters 3 c.stride c.conv_shortcut c.ki c.name

/-- `block1` invoked with the parameters of one `BlockCall`. -/
def callBlock1 (cl : Bool) (filters : Nat) (t : Tensor) (c : BlockCall) : Tensor × List Layer :=
  block1 cl t filters 3 c.stride c.conv_shortcut c.ki c.name

/-- `block2` invoked with the parameters of one `BlockCall`. -/
def callBlock2 (cl : Bool) (filters : Nat) (t : Tensor) (c : BlockCall) : Tensor × List Layer :=
  block2 cl t filters 3 c.stride c.conv_shortcut c.ki c.name

/-- One stage of a preset's stage plan: channel width, depth, the stride
handed to the stack composer, and the stage's name stem. -/
structure Stage where
  filters : Nat
  blocks : Nat
  stride1 : Nat
  name : String
deriving DecidableEq

/-- Fold a stack composer over a stage plan, threading the tensor and
concatenating the creation traces. -/
def runPlan (stepf : Tensor → Stage → Tensor × List Layer) :
    Tensor → List Stage → Tensor × List Layer
  | x, [] => (x, [])
  | x, st :: rest =>
      ((runPlan stepf (stepf x st).1 rest).1,
       (stepf x st).2 ++ (runPlan stepf (stepf x st).1 rest).2)

/-- Stage plan of `ResNet18`. -/
def resnet18_plan : List Stage :=
  [⟨64, 2, 1, "conv2"⟩, ⟨128, 2, 2, "conv3"⟩, ⟨256, 2, 2, "conv4"⟩, ⟨512, 2, 2, "conv5"⟩]

/-- Stage plan of `ResNet34`. -/
def resnet34_plan : List Stage :=
  [⟨64, 3, 1, "conv2"⟩, ⟨128, 4, 2, "conv3"⟩, ⟨256, 6, 2, "conv4"⟩, ⟨512, 3, 2, "conv5"⟩]

/-- Stage plan of `ResNet50`. -/
def resnet50_plan : List Stage :=
  [⟨64, 3, 1, "conv2"⟩, ⟨128, 4, 2, "conv3"⟩, ⟨256, 6, 2, "conv4"⟩, ⟨512, 3, 2, "conv5"⟩]

/-- Stage plan of `ResNet101`. -/
def resnet101_plan : List Stage :=
  [⟨64, 3, 1, "conv2"⟩, ⟨128, 4, 2, "conv3"⟩, ⟨256, 23, 2, "conv4"⟩, ⟨512, 3, 2, "conv5"⟩]

/-- Stage plan of `ResNet152`. -/
def resnet152_plan : List Stage :=
  [⟨64, 3, 1, "conv2"⟩, ⟨128, 8, 2, "conv3"⟩, ⟨256, 36, 2, "conv4"⟩, ⟨512, 3, 2, "conv5"⟩]

/-- Stage plan of `ResNet50V2`. -/
def resnet50v2_plan : List Stage :=
  [⟨64, 3, 2, "conv2"⟩, ⟨128, 4, 2, "conv3"⟩, ⟨256, 6, 2, "conv4"⟩, ⟨512, 3, 1, "conv5"⟩]

/-- Stage plan of `ResNet101V2`. -/
def resnet101v2_plan : List Stage :=
  [⟨64, 3, 2, "conv2"⟩, ⟨128, 4, 2, "conv3"⟩, ⟨256, 23, 2, "conv4"⟩, ⟨512, 3, 1, "conv5"⟩]

/-- Stage plan of `ResNet152V2`. -/
def resnet152v2_plan : List Stage :=
  [⟨64, 3, 2, "conv2"⟩, ⟨128, 8, 2, "conv3"⟩, ⟨256, 36, 2, "conv4"⟩, ⟨512, 3, 1, "conv5"⟩]

/-- `stack0` invoked with the parameters of one `Stage`. -/
def stageStack0 (cl : Bool) (ki : String) (t : Tensor) (st : Stage) : Tensor × List Layer :=
  stack0 cl t st.filters st.blocks st.stride1 ki st.name

/-- `stack1` invoked with the parameters of one `Stage`. -/
def stageStack1 (cl : Bool) (ki : String) (t : Tensor) (st : Stage) : Tensor × List Layer :=
  stack1 cl t st.filters st.blocks st.stride1 ki st.name

/-- `stack2` invoked with the parameters of one `Stage`. -/
def stageStack2 (cl : Bool) (ki : String) (t : Tensor) (st : Stage) : Tensor × List Layer :=
  stack2 cl t st.filters st.blocks st.stride1 ki st.name

/-- Modelled from the spec: the fixed suffix-token set of the naming
convention in section 6 of the specification, exactly as listed there. -/
def specSuffixTokens : List String :=
  ["0_conv", "0_bn", "1_conv", "1_bn", "1_relu", "2_conv", "2_bn", "2_relu",
   "3_conv", "3_bn", "add", "out", "preact_bn", "preact_relu"]

/-- The spec's suffix-token set extended with `2_pad`, the one extra token
`block2` actually uses (for its named zero-padding layer). -/
def amendedSuffixTokens : List String := specSuffixTokens ++ ["2_pad"]

/-- The ordered name suffixes of the layers `block0` creates. -/
def block0Suffixes (conv_shortcut : Bool) : List String :=
  (if conv_shortcut then ["_0_conv", "_0_bn"] else []) ++
  ["_1_conv", "_1_bn", "_1_relu", "_2_conv", "_2_bn", "_add", "_out"]

/-- The ordered name suffixes of the layers `block1` creates. -/
def block1Suffixes (conv_shortcut : Bool) : List String :=
  (if conv_shortcut then ["_0_conv", "_0_bn"] else []) ++
  ["_1_conv", "_1_bn", "_1_relu", "_2_conv", "_2_bn", "_2_relu", "_3_conv", "_3_bn",
   "_add", "_out"]

/-- The ordered name suffixes of the named layers `block2` creates (the
shortcut max-pooling layer is anonymous and therefore absent). -/
def block2Suffixes (conv_shortcut : Bool) : List String :=
  ["_preact_bn", "_preact_relu"] ++ (if conv_shortcut then ["_0_conv"] else []) ++
  ["_1_conv", "_1_bn", "_1_relu", "_2_pad", "_2_conv", "_2_bn", "_2_relu", "_3_conv", "_out"]

/-- The stem layers of `ResNet`, as a function of the pre-activation flag,
stem bias flag, initializer and data format. -/
def stem_ops (preact use_bias : Bool) (ki : String) (cl : Bool) : List Layer :=
  [Layer.zero_padding 3 (some "conv1_pad"),
   Layer.conv1d 64 7 2 "valid" use_bias none ki (some "conv1_conv")]
  ++ (if preact = false then
        [Layer.batch_norm (bn_axis cl) "conv1_bn", Layer.activation "relu" "conv1_relu"]
      else [])
  ++ [Layer.zero_padding 1 (some "pool1_pad"), Layer.max_pooling 3 2 (some "pool1_pool")]

/-- The trailing normalize-activate pair `ResNet` inserts after the stacks
for pre-activation architectures. -/
def post_ops (preact : Bool) (cl : Bool) : List Layer :=
  if preact = true then
    [Layer.batch_norm (bn_axis cl) "post_bn", Layer.activation "relu" "post_relu"]
  else []

/-- The tensor the stem hands to `stack_fn`, for input tensor `t0`. -/
def stem_tensor (preact use_bias : Bool) (ki : String) (cl : Bool) (t0 : Tensor) : Tensor :=
  let x1 := Tensor.app1 (Layer.conv1d 64 7 2 "valid" use_bias none ki (some "conv1_conv"))
    (Tensor.app1 (Layer.zero_padding 3 (some "conv1_pad")) t0)
  let xa :=
    if preact = false then
      Tensor.app1 (Layer.activation "relu" "conv1_relu")
        (Tensor.app1 (Layer.batch_norm (bn_axis cl) "conv1_bn") x1)
    else x1
  Tensor.app1 (Layer.max_pooling 3 2 (some "pool1_pool"))
    (Tensor.app1 (Layer.zero_padding 1 (some "pool1_pad")) xa)

/-- The two head layers `ResNet` appends under `include_top`. -/
def resnet_top_head (classes : Nat) : List Layer :=
  [Layer.global_average_pooling (some "avg_pool"),
   Layer.dense classes (some "softmax") "probs"]

/-- The four head layers `VGG19` appends under `include_top`. -/
def vgg19_top_head (classes : Nat) : List Layer :=
  [Layer.flatten "flatten", Layer.dense 4096 (some "relu") "fc1",
   Layer.dense 4096 (some "relu") "fc2",
   Layer.dense classes (some "softmax") "predictions"]

/-- The head layers `ResNet` appends: the classification head under
`include_top`, else the selected global pooling, else nothing. -/
def resnet_head_ops (include_top : Bool) (pooling : Option String) (classes : Nat) :
    List Layer :=
  if include_top then resnet_top_head classes
  else if pooling = some "avg" then [Layer.global_average_pooling (some "avg_pool")]
  else if pooling = some "max" then [Layer.global_max_pooling (some "max_pool")]
  else []

theorem runCalls_eq_foldl (bf : Tensor → BlockCall → Tensor × List Layer)
    (acc : Tensor × List Layer) (l : List BlockCall) :
    runCalls bf acc l =
      l.foldl (fun acc c => ((bf acc.1 c).1, acc.2 ++ (bf acc.1 c).2)) acc := by
  induction l generalizing acc with
  | nil => rfl
  | cons c rest ih => simp only [runCalls, List.foldl_cons, ih]

theorem stack0_eq_calls (cl : Bool) (x : Tensor) (f n s1 : Nat) (ki nm : String) :
    stack0 cl x f n s1 ki nm = runCalls (callBlock0 cl f) (x, []) (stack0Calls n s1 ki nm) := by
  simp only [stack0, stack0Calls, runCalls_eq_foldl, List.foldl_cons, List.foldl_map,
    List.nil_append]
  rfl

theorem stack1_eq_calls (cl : Bool) (x : Tensor) (f n s1 : Nat) (ki nm : String) :
    stack1 cl x f n s1 ki nm = runCalls (callBlock1 cl f) (x, []) (stack1Calls n s1 ki nm) := by
  simp only [stack1, stack1Calls, stack0Calls, runCalls_eq_foldl, List.foldl_cons,
    List.foldl_map, List.nil_append]
  rfl

theorem stack2_eq_calls (cl : Bool) (x : Tensor) (f n s1 : Nat) (ki nm : String) :
    stack2 cl x f n s1 ki nm = runCalls (callBlock2 cl f) (x, []) (stack2Calls n s1 ki nm) := by
  simp only [stack2, stack2Calls, runCalls_eq_foldl, List.foldl_cons, List.foldl_map,
    List.nil_append, List.cons_append, List.foldl_append, List.foldl_nil]
  rfl

/-- C1 (counterexample): the claim places the projection shortcut at the
*last* block of a pre-activation stack.  In the concrete stack
`stack2(filters=1, blocks=2, stride1=2, name='conv2')` the projection
convolution (`_0_conv`) exists for block 1 and is absent for block 2, so
the projected block is the first, not the last. -/
theorem spec_C1_counterexample :
    (((stack2 true Tensor.graph_input 1 2 2 "he_uniform" "conv2").2.filterMap
        layerName).contains "conv2_block1_0_conv" = true)
    ∧ (((stack2 true Tensor.graph_input 1 2 2 "he_uniform" "conv2").2.filterMap
        layerName).contains "conv2_block2_0_conv" = false) := by
  constructor <;> rfl

/-- C1 (amended): every stack composer makes exactly one block call with a
projection (convolution) shortcut, and it is the *first* block for all
three variants — including the pre-activation one, where it is the
down-sampling stride, not the projection, that moves to the last block.
The three equations tie the call sequences to the actual composers. -/
theorem spec_C1_amended (cl : Bool) (x : Tensor) (f n s1 : Nat) (ki nm : String)
    (h : 1 ≤ n) :
    (stack0 cl x f n s1 ki nm = runCalls (callBlock0 cl f) (x, []) (stack0Calls n s1 ki nm)
     ∧ stack1 cl x f n s1 ki nm = runCalls (callBlock1 cl f) (x, []) (stack1Calls n s1 ki nm)
     ∧ stack2 cl x f n s1 ki nm = runCalls (callBlock2 cl f) (x, []) (stack2Calls n s1 ki nm))
    ∧ ((stack0Calls n s1 ki nm).countP (fun c => c.conv_shortcut) = 1
       ∧ (stack0Calls n s1 ki nm).head?.map (fun c => c.conv_shortcut) = some true)
    ∧ ((stack1Calls n s1 ki nm).countP (fun c => c.conv_shortcut) = 1
       ∧ (stack1Calls n s1 ki nm).head?.map (fun c => c.conv_shortcut) = some true)
    ∧ ((stack2Calls n s1 ki nm).countP (fun c => c.conv_shortcut) = 1
       ∧ (stack2Calls n s1 ki nm).head?.map (fun c => c.conv_shortcut) = some true) := by
  refine ⟨⟨stack0_eq_calls .., stack1_eq_calls .., stack2_eq_calls ..⟩, ⟨?_, ?_⟩, ⟨?_, ?_⟩, ⟨?_, ?_⟩⟩
  all_goals
    simp [stack0Calls, stack1Calls, stack2Calls, List.countP_cons, List.countP_map,
      List.countP_append, Function.comp]

/-- Witness for `spec_C1_amended` at a concrete depth. -/
theorem spec_C1_amended_witness :
    1 ≤ 3
    ∧ ((stack0Calls 3 2 "he_uniform" "conv2").countP (fun c => c.conv_shortcut) = 1
       ∧ (stack0Calls 3 2 "he_uniform" "conv2").head?.map (fun c => c.conv_shortcut)
           = some true) :=
  ⟨by decide,
   (spec_C1_amended true Tensor.graph_input 64 3 2 "he_uniform" "conv2" (by decide)).2.1⟩

/-- C2 (confirmed): `stack0`/`stack1` pass `stride1` only to their first
block call and stride 1 to every later one; `stack2` passes `stride1` only
to its last block call and stride 1 to every earlier one.  The equations
tie the call sequences to the composers. -/
theorem spec_C2 (cl : Bool) (x : Tensor) (f n s1 : Nat) (ki nm : String) :
    (stack0 cl x f n s1 ki nm = runCalls (callBlock0 cl f) (x, []) (stack0Calls n s1 ki nm)
     ∧ stack1 cl x f n s1 ki nm = runCalls (callBlock1 cl f) (x, []) (stack1Calls n s1 ki nm)
     ∧ stack2 cl x f n s1 ki nm = runCalls (callBlock2 cl f) (x, []) (stack2Calls n s1 ki nm))
    ∧ (1 ≤ n →
        ((stack0Calls n s1 ki nm).head?.map (fun c => c.stride) = some s1
         ∧ ∀ c ∈ (stack0Calls n s1 ki nm).tail, c.stride = 1)
        ∧ ((stack1Calls n s1 ki nm).head?.map (fun c => c.stride) = some s1
           ∧ ∀ c ∈ (stack1Calls n s1 ki nm).tail, c.stride = 1))
    ∧ (2 ≤ n →
        (stack2Calls n s1 ki nm).getLast?.map (fun c => c.stride) = some s1
        ∧ ∀ c ∈ (stack2Calls n s1 ki nm).dropLast, c.stride = 1) := by
  refine ⟨⟨stack0_eq_calls .., stack1_eq_calls .., stack2_eq_calls ..⟩, fun _ => ⟨⟨?_, ?_⟩, ⟨?_, ?_⟩⟩,
    fun _ => ⟨?_, ?_⟩⟩
  · rfl
  · intro c hc
    simp only [stack0Calls, List.tail_cons, List.mem_map] at hc
    obtain ⟨i, -, rfl⟩ := hc
    rfl
  · rfl
  · intro c hc
    simp only [stack1Calls, stack0Calls, List.tail_cons, List.mem_map] at hc
    obtain ⟨i, -, rfl⟩ := hc
    rfl
  · rw [stack2Calls, List.getLast?_concat]
    rfl
  · intro c hc
    rw [stack2Calls, List.dropLast_concat, List.mem_cons] at hc
    rcases hc with h | hc
    · rw [h]
    · obtain ⟨i, -, rfl⟩ := List.mem_map.mp hc
      rfl

/-- Witness for `spec_C2` at concrete depths. -/
theorem spec_C2_witness :
    (1 ≤ 3
     ∧ ((stack0Calls 3 2 "he_uniform" "conv3").head?.map (fun c => c.stride) = some 2
        ∧ ∀ c ∈ (stack0Calls 3 2 "he_uniform" "conv3").tail, c.stride = 1))
    ∧ (2 ≤ 3
       ∧ ((stack2Calls 3 2 "he_uniform" "conv3").getLast?.map (fun c => c.stride) = some 2
          ∧ ∀ c ∈ (stack2Calls 3 2 "he_uniform" "conv3").dropLast, c.stride = 1)) :=
  ⟨⟨by decide,
    ((spec_C2 true Tensor.graph_input 64 3 2 "he_uniform" "conv3").2.1 (by decide)).1⟩,
   ⟨by decide,
    (spec_C2 true Tensor.graph_input 64 3 2 "he_uniform" "conv3").2.2 (by decide)⟩⟩

/-- C3 (confirmed): the output of `block2` is the Add of shortcut and main
path, with no activation applied after the addition (the result's root is
the Add layer itself); the shortcut is the 1x1 projection convolution of
the pre-activated tensor at the given stride when `conv_shortcut` is true,
a stride-only max-pool of the raw input when `conv_shortcut` is false and
the stride exceeds 1, and the raw input itself otherwise. -/
theorem spec_C3 (cl : Bool) (x : Tensor) (f ks s : Nat) (cs : Bool) (ki nm : String) :
    ∃ main : Tensor,
      (block2 cl x f ks s cs ki nm).1 =
        Tensor.app2 (Layer.add_layer (nm ++ "_out"))
          (if cs then
            Tensor.app1 (Layer.conv1d (4 * f) 1 s "valid" true none ki (some (nm ++ "_0_conv")))
              (Tensor.app1 (Layer.activation "relu" (nm ++ "_preact_relu"))
                (Tensor.app1 (Layer.batch_norm (bn_axis cl) (nm ++ "_preact_bn")) x))
          else if s > 1 then Tensor.app1 (Layer.max_pooling 1 s none) x
          else x)
          main :=
  ⟨_, rfl⟩

/-- C4 (confirmed): for both build entry points, a `weights` argument that
is neither absent nor an existing path aborts construction with the
`ValueError` message before any graph node is created (the creation trace
of the aborted build is empty), and a `weights` argument that is absent or
an existing path never raises that error. -/
theorem spec_C4 (sf : Tensor → Tensor × List Layer) (preact ub mn_top : Bool)
    (mn : String) (w : Option String) (it : Option Tensor) (p : Option String)
    (cls : Nat) (ki : String) (pe : String → Bool) (ikt : Tensor → Bool) (cl : Bool) :
    (weights_ok pe w = false →
      ResNet sf preact ub mn mn_top w it p cls ki pe ikt cl
          = ([], Except.error resnet_weights_error)
      ∧ VGG19 mn_top w it p cls pe ikt = ([], Except.error vgg19_weights_error))
    ∧ (weights_ok pe w = true →
      (∃ tr t, ResNet sf preact ub mn mn_top w it p cls ki pe ikt cl = (tr, Except.ok t))
      ∧ (∃ tr t, VGG19 mn_top w it p cls pe ikt = (tr, Except.ok t))) := by
  constructor
  · intro h
    rw [ResNet, VGG19, if_pos h, if_pos h]
    exact ⟨rfl, rfl⟩
  · intro h
    rw [ResNet, VGG19, if_neg (by rw [h]; simp), if_neg (by rw [h]; simp)]
    exact ⟨⟨_, _, rfl⟩, ⟨_, _, rfl⟩⟩

/-- Witness for `spec_C4`: with a file system on which nothing exists, a
concrete path is rejected with an empty trace, while `weights = none`
builds successfully. -/
theorem spec_C4_witness :
    (weights_ok (fun _ => false) (some "resnet50.h5") = false →
      ResNet (fun t => (t, [])) false true "resnet" true (some "resnet50.h5") none none 1000
          "he_uniform" (fun _ => false) (fun _ => false) true
        = ([], Except.error resnet_weights_error)
      ∧ VGG19 true (some "resnet50.h5") none none 1000 (fun _ => false) (fun _ => false)
        = ([], Except.error vgg19_weights_error))
    ∧ (weights_ok (fun _ => false) (none : Option String) = true
       ∧ (∃ tr t, ResNet (fun t => (t, [])) false true "resnet" true none none none 1000
            "he_uniform" (fun _ => false) (fun _ => false) true = (tr, Except.ok t))
       ∧ (∃ tr t, VGG19 true none none none 1000 (fun _ => false) (fun _ => false)
            = (tr, Except.ok t))) :=
  ⟨(spec_C4 (fun t => (t, [])) false true true "resnet" (some "resnet50.h5") none none 1000
      "he_uniform" (fun _ => false) (fun _ => false) true).1,
   ⟨rfl,
    (spec_C4 (fun t => (t, [])) false true true "resnet" none none none 1000
      "he_uniform" (fun _ => false) (fun _ => false) true).2 rfl⟩⟩

set_option maxRecDepth 40000

/-- C5 (confirmed): for every named preset (built here with the canonical
arguments: top included, no weights, fresh input, 1000 classes, default
initializer, channels-last), the number of residual blocks — one Add layer
is created per residual block and nowhere else — equals the summed depth of
its stage plan; in particular the 50-layer bottleneck preset yields
3+4+6+3 = 16 blocks. -/
theorem spec_C5 :
    ((ResNet18 true none none none 1000 "he_uniform" (fun _ => false) (fun _ => false)
        true).1.countP isAdd) = (resnet18_plan.map Stage.blocks).sum
    ∧ ((ResNet34 true none none none 1000 "he_uniform" (fun _ => false) (fun _ => false)
        true).1.countP isAdd) = (resnet34_plan.map Stage.blocks).sum
    ∧ ((ResNet50 true none none none 1000 "he_uniform" (fun _ => false) (fun _ => false)
        true).1.countP isAdd) = (resnet50_plan.map Stage.blocks).sum
    ∧ ((ResNet101 true none none none 1000 "he_uniform" (fun _ => false) (fun _ => false)
        true).1.countP isAdd) = (resnet101_plan.map Stage.blocks).sum
    ∧ ((ResNet152 true none none none 1000 "he_uniform" (fun _ => false) (fun _ => false)
        true).1.countP isAdd) = (resnet152_plan.map Stage.blocks).sum
    ∧ ((ResNet50V2 true none none none 1000 "he_uniform" (fun _ => false) (fun _ => false)
        true).1.countP isAdd) = (resnet50v2_plan.map Stage.blocks).sum
    ∧ ((ResNet101V2 true none none none 1000 "he_uniform" (fun _ => false) (fun _ => false)
        true).1.countP isAdd) = (resnet101v2_plan.map Stage.blocks).sum
    ∧ ((ResNet152V2 true none none none 1000 "he_uniform" (fun _ => false) (fun _ => false)
        true).1.countP isAdd) = (resnet152v2_plan.map Stage.blocks).sum
    ∧ (resnet50_plan.map Stage.blocks).sum = 3 + 4 + 6 + 3
    ∧ ((ResNet50 true none none none 1000 "he_uniform" (fun _ => false) (fun _ => false)
        true).1.countP isAdd) = 16 := by
  refine ⟨?_, ?_, ?_, ?_, ?_, ?_, ?_, ?_, ?_, ?_⟩ <;> rfl

/-- C6 (counterexample): the claim says every build with the top included
gets a global-average-pool + dense(softmax) head, but the concrete VGG19
build with `include_top = true` creates no global average pooling layer at
all: its head is flatten followed by three dense layers, the last of which
is the softmax classifier. -/
theorem spec_C6_counterexample :
    ((VGG19 true none none none 1000 (fun _ => false) (fun _ => false)).1.countP
        isGlobalAvgPool = 0)
    ∧ ((VGG19 true none none none 1000 (fun _ => false) (fun _ => false)).1.countP
        isFlatten = 1)
    ∧ ((VGG19 true none none none 1000 (fun _ => false) (fun _ => false)).1.getLast?
        = some (Layer.dense 1000 (some "softmax") "predictions")) := by
  refine ⟨?_, ?_, ?_⟩ <;> rfl

/-- C6 (amended): the `pooling` argument never affects a build with
`include_top = true`.  Under a valid `weights` argument, the ResNet head is
exactly global-average-pool + dense(classes, softmax) appended to the
headless build, while the VGG19 head is flatten + dense(4096, relu) twice +
dense(classes, softmax); with `include_top = false` both builders append a
global average pooling for `pooling = avg`, a global max pooling for
`pooling = max`, and nothing otherwise. -/
theorem spec_C6_amended (sf : Tensor → Tensor × List Layer) (preact ub : Bool) (mn : String)
    (w : Option String) (it : Option Tensor) (p : Option String) (cls : Nat) (ki : String)
    (pe : String → Bool) (ikt : Tensor → Bool) (cl : Bool) :
    (ResNet sf preact ub mn true w it p cls ki pe ikt cl
       = ResNet sf preact ub mn true w it none cls ki pe ikt cl
     ∧ VGG19 true w it p cls pe ikt = VGG19 true w it none cls pe ikt)
    ∧ (weights_ok pe w = true →
        ((ResNet sf preact ub mn true w it none cls ki pe ikt cl).1
            = (ResNet sf preact ub mn false w it none cls ki pe ikt cl).1
              ++ resnet_top_head cls
         ∧ (ResNet sf preact ub mn false w it (some "avg") cls ki pe ikt cl).1
            = (ResNet sf preact ub mn false w it none cls ki pe ikt cl).1
              ++ [Layer.global_average_pooling (some "avg_pool")]
         ∧ (ResNet sf preact ub mn false w it (some "max") cls ki pe ikt cl).1
            = (ResNet sf preact ub mn false w it none cls ki pe ikt cl).1
              ++ [Layer.global_max_pooling (some "max_pool")]
         ∧ (p ≠ some "avg" → p ≠ some "max" →
             (ResNet sf preact ub mn false w it p cls ki pe ikt cl).1
               = (ResNet sf preact ub mn false w it none cls ki pe ikt cl).1))
        ∧ ((VGG19 true w it none cls pe ikt).1
            = (VGG19 false w it none cls pe ikt).1 ++ vgg19_top_head cls
         ∧ (VGG19 false w it (some "avg") cls pe ikt).1
            = (VGG19 false w it none cls pe ikt).1 ++ [Layer.global_average_pooling none]
         ∧ (VGG19 false w it (some "max") cls pe ikt).1
            = (VGG19 false w it none cls pe ikt).1 ++ [Layer.global_max_pooling none]
         ∧ (p ≠ some "avg" → p ≠ some "max" →
             (VGG19 false w it p cls pe ikt).1 = (VGG19 false w it none cls pe ikt).1))) := by
  constructor
  · by_cases h : weights_ok pe w = false
    · rw [ResNet, ResNet, VGG19, VGG19, if_pos h, if_pos h, if_pos h, if_pos h]
      exact ⟨rfl, rfl⟩
    · rw [ResNet, ResNet, VGG19, VGG19, if_neg h, if_neg h, if_neg h, if_neg h]
      exact ⟨rfl, rfl⟩
  · intro h
    have h' : ¬ (weights_ok pe w = false) := by rw [h]; simp
    refine ⟨⟨?_, ?_, ?_, ?_⟩, ⟨?_, ?_, ?_, ?_⟩⟩
    · rw [ResNet, ResNet, if_neg h', if_neg h']
      simp [resnet_top_head]
    · rw [ResNet, ResNet, if_neg h', if_neg h']
      simp
    · rw [ResNet, ResNet, if_neg h', if_neg h']
      simp
    · intro ha hm
      rw [ResNet, ResNet, if_neg h', if_neg h']
      simp [if_neg ha, if_neg hm]
    · rw [VGG19, VGG19, if_neg h', if_neg h']
      simp [vgg19_top_head]
    · rw [VGG19, VGG19, if_neg h', if_neg h']
      simp
    · rw [VGG19, VGG19, if_neg h', if_neg h']
      simp
    · intro ha hm
      rw [VGG19, VGG19, if_neg h', if_neg h']
      simp [if_neg ha, if_neg hm]

/-- Witness for `spec_C6_amended` at concrete arguments. -/
theorem spec_C6_amended_witness :
    weights_ok (fun _ => false) (none : Option String) = true
    ∧ (VGG19 true none none none 7 (fun _ => false) (fun _ => false)).1
        = (VGG19 false none none none 7 (fun _ => false) (fun _ => false)).1
          ++ vgg19_top_head 7
    ∧ ((none : Option String) ≠ some "avg" → (none : Option String) ≠ some "max" →
        (VGG19 false none none none 7 (fun _ => false) (fun _ => false)).1
          = (VGG19 false none none none 7 (fun _ => false) (fun _ => false)).1) :=
  ⟨rfl,
   ((spec_C6_amended (fun t => (t, [])) false true "resnet" none none none 7
       "he_uniform" (fun _ => false) (fun _ => false) true).2 rfl).2.1,
   ((spec_C6_amended (fun t => (t, [])) false true "resnet" none none none 7
       "he_uniform" (fun _ => false) (fun _ => false) true).2 rfl).2.2.2.2⟩

/-- C7 (counterexample): `block2` creates a named zero-padding layer whose
suffix `2_pad` is not among the claim's fixed suffix tokens: the concrete
block named `cv` creates a layer named `cv_2_pad`, and no token of the
claimed set produces that name. -/
theorem spec_C7_counterexample :
    (((block2 true Tensor.graph_input 1 3 1 false "he_uniform" "cv").2.filterMap
        layerName).contains "cv_2_pad" = true)
    ∧ (specSuffixTokens.all (fun t => !("cv_2_pad" == "cv" ++ "_" ++ t)) = true) := by
  exact ⟨rfl, rfl⟩

/-- C7 (amended): every named sub-layer of every block variant is named
`name_prefix ++ "_" ++ token` with the token drawn from the claimed set
extended with `2_pad`, and the name sequence is a pure function of
(variant, name prefix, shortcut flag): the named layers of each block are
exactly its suffix list mapped over the prefix.  (The stride-only max-pool
shortcut of `block2` is anonymous and so is outside the naming contract.) -/
theorem spec_C7_amended (cl : Bool) (x : Tensor) (f ks s : Nat) (cs : Bool) (ki nm : String) :
    ((block0 cl x f ks s cs ki nm).2.filterMap layerName
        = (block0Suffixes cs).map (fun sfx => nm ++ sfx))
    ∧ ((block1 cl x f ks s cs ki nm).2.filterMap layerName
        = (block1Suffixes cs).map (fun sfx => nm ++ sfx))
    ∧ ((block2 cl x f ks s cs ki nm).2.filterMap layerName
        = (block2Suffixes cs).map (fun sfx => nm ++ sfx))
    ∧ (∀ b : Bool, ∀ sfx ∈ block0Suffixes b,
        sfx ∈ amendedSuffixTokens.map (fun t => "_" ++ t))
    ∧ (∀ b : Bool, ∀ sfx ∈ block1Suffixes b,
        sfx ∈ amendedSuffixTokens.map (fun t => "_" ++ t))
    ∧ (∀ b : Bool, ∀ sfx ∈ block2Suffixes b,
        sfx ∈ amendedSuffixTokens.map (fun t => "_" ++ t)) := by
  refine ⟨?_, ?_, ?_, ?_, ?_, ?_⟩
  · cases cs <;> rfl
  · cases cs <;> rfl
  · cases cs
    · by_cases h : s > 1 <;> simp [block2, block2Suffixes, layerName, h]
    · rfl
  · intro b
    cases b <;> decide
  · intro b
    cases b <;> decide
  · intro b
    cases b <;> decide

/-- Witness for `spec_C7_amended`: the `2_pad` suffix of the projected
pre-activation block is covered by the extended token set. -/
theorem spec_C7_amended_witness :
    "_2_pad" ∈ block2Suffixes true
    ∧ "_2_pad" ∈ amendedSuffixTokens.map (fun t => "_" ++ t) :=
  ⟨by decide,
   (spec_C7_amended true Tensor.graph_input 64 3 1 true "he_uniform"
      "conv2_block1").2.2.2.2.2 true "_2_pad" (by decide)⟩

/-- C8 (confirmed): under a valid `weights` argument the ResNet creation
trace is exactly: the input node, then zero-pad(3), convolution(64 filters,
kernel 7, stride 2), then — only when `preact` is false — normalization
and relu, then zero-pad(1) and max-pool(window 3, stride 2), then the
stacks applied to the stem's output tensor, then — only when `preact` is
true — a trailing normalization and relu, then the head. -/
theorem spec_C8 (sf : Tensor → Tensor × List Layer) (preact ub itop : Bool) (mn : String)
    (w : Option String) (itens : Option Tensor) (p : Option String) (cls : Nat) (ki : String)
    (pe : String → Bool) (ikt : Tensor → Bool) (cl : Bool)
    (h : weights_ok pe w = true) :
    (ResNet sf preact ub mn itop w itens p cls ki pe ikt cl).1
      = (resolveInput ikt itens).2 ++ stem_ops preact ub ki cl
        ++ (sf (stem_tensor preact ub ki cl (resolveInput ikt itens).1)).2
        ++ post_ops preact cl ++ resnet_head_ops itop p cls := by
  have h' : ¬ (weights_ok pe w = false) := by rw [h]; simp
  rw [ResNet, if_neg h']
  cases preact <;>
    simp [stem_ops, post_ops, stem_tensor, resnet_head_ops, resnet_top_head,
      List.append_assoc, apply_ite Prod.snd]

/-- Witness for `spec_C8` at concrete arguments. -/
theorem spec_C8_witness :
    weights_ok (fun _ => false) (none : Option String) = true
    ∧ (ResNet (fun t => (t, [Layer.add_layer "s"])) true true "m" false none none none 10
        "he_uniform" (fun _ => false) (fun _ => false) true).1
      = (resolveInput (fun _ => false) none).2 ++ stem_ops true true "he_uniform" true
        ++ ((fun t => (t, [Layer.add_layer "s"]))
             (stem_tensor true true "he_uniform" true
               (resolveInput (fun _ => false) none).1)).2
        ++ post_ops true true ++ resnet_head_ops false none 10 :=
  ⟨rfl,
   spec_C8 (fun t => (t, [Layer.add_layer "s"])) true true false "m" none none none 10
     "he_uniform" (fun _ => false) (fun _ => false) true rfl⟩

theorem block2_addCount (cl : Bool) (x : Tensor) (f ks s : Nat) (cs : Bool) (ki nm : String) :
    ((block2 cl x f ks s cs ki nm).2.countP isAdd) = 1 := by
  cases cs
  · by_cases h : s > 1 <;> simp [block2, isAdd, h]
  · simp [block2, isAdd]

theorem stack2_mid_addCount (cl : Bool) (f : Nat) (nm : String) :
    ∀ (l : List Nat) (acc : Tensor × List Layer),
      ((l.foldl (fun acc i =>
          ((block2 cl acc.1 f 3 1 false "he_uniform" (nm ++ "_block" ++ toString i)).1,
           acc.2 ++ (block2 cl acc.1 f 3 1 false "he_uniform" (nm ++ "_block" ++ toString i)).2))
          acc).2.countP isAdd)
        = acc.2.countP isAdd + l.length
  | [], acc => by simp
  | i :: rest, acc => by
      rw [List.foldl_cons, stack2_mid_addCount cl f nm rest]
      simp [List.countP_append, block2_addCount]
      omega

/-- C9 (confirmed): `stack2` called with `blocks = 1` builds two residual
blocks, not one, and both carry the `_block1` name (witnessed by two Add
layers named `conv2_block1_out` in the concrete trace); for `blocks ≥ 2` it
builds exactly `blocks` residual blocks. -/
theorem spec_C9 :
    (∀ (cl : Bool) (x : Tensor) (f s1 : Nat) (ki nm : String),
      ((stack2 cl x f 1 s1 ki nm).2.countP isAdd) = 2)
    ∧ (((stack2 true Tensor.graph_input 1 1 2 "he_uniform" "conv2").2.countP
          (fun l => layerName l == some "conv2_block1_out")) = 2)
    ∧ (∀ (n : Nat), 2 ≤ n → ∀ (cl : Bool) (x : Tensor) (f s1 : Nat) (ki nm : String),
        ((stack2 cl x f n s1 ki nm).2.countP isAdd) = n) := by
  refine ⟨?_, by rfl, ?_⟩
  · intro cl x f s1 ki nm
    simp [stack2, pyRange, List.countP_append, block2_addCount]
  · intro n hn cl x f s1 ki nm
    have hmid := stack2_mid_addCount cl f nm (pyRange 2 n)
      (block2 cl x f 3 1 true ki (nm ++ "_block1"))
    simp only [stack2, List.countP_append]
    rw [hmid, block2_addCount, block2_addCount]
    simp only [pyRange, List.length_map, List.length_range]
    omega

/-- Witness for `spec_C9` at a concrete depth. -/
theorem spec_C9_witness :
    2 ≤ 2
    ∧ ((stack2 true Tensor.graph_input 1 2 2 "he_uniform" "conv4").2.countP isAdd) = 2 :=
  ⟨by decide, spec_C9.2.2 2 (by decide) true Tensor.graph_input 1 2 "he_uniform" "conv4"⟩

/-- C10 (confirmed): every preset's `stack_fn` is the fold of its stack
composer over its stage plan, and in the v2 presets the unit stride sits on
the last stage (`conv5`) with the three earlier stages at the default
stride 2, while in the v1 presets the unit stride sits on the first stage
(`conv2`) with the remaining stages at stride 2. -/
theorem spec_C10 (ki : String) (cl : Bool) (x : Tensor) :
    (stack_fn_resnet18 ki cl x = runPlan (stageStack0 cl ki) x resnet18_plan
     ∧ stack_fn_resnet34 ki cl x = runPlan (stageStack0 cl ki) x resnet34_plan
     ∧ stack_fn_resnet50 ki cl x = runPlan (stageStack1 cl ki) x resnet50_plan
     ∧ stack_fn_resnet101 ki cl x = runPlan (stageStack1 cl ki) x resnet101_plan
     ∧ stack_fn_resnet152 ki cl x = runPlan (stageStack1 cl ki) x resnet152_plan
     ∧ stack_fn_resnet50v2 ki cl x = runPlan (stageStack2 cl ki) x resnet50v2_plan
     ∧ stack_fn_resnet101v2 ki cl x = runPlan (stageStack2 cl ki) x resnet101v2_plan
     ∧ stack_fn_resnet152v2 ki cl x = runPlan (stageStack2 cl ki) x resnet152v2_plan)
    ∧ (resnet18_plan.map Stage.stride1 = [1, 2, 2, 2]
       ∧ resnet34_plan.map Stage.stride1 = [1, 2, 2, 2]
       ∧ resnet50_plan.map Stage.stride1 = [1, 2, 2, 2]
       ∧ resnet101_plan.map Stage.stride1 = [1, 2, 2, 2]
       ∧ resnet152_plan.map Stage.stride1 = [1, 2, 2, 2]
       ∧ resnet50v2_plan.map Stage.stride1 = [2, 2, 2, 1]
       ∧ resnet101v2_plan.map Stage.stride1 = [2, 2, 2, 1]
       ∧ resnet152v2_plan.map Stage.stride1 = [2, 2, 2, 1])
    ∧ (resnet18_plan.map Stage.name = ["conv2", "conv3", "conv4", "conv5"]
       ∧ resnet34_plan.map Stage.name = ["conv2", "conv3", "conv4", "conv5"]
       ∧ resnet50_plan.map Stage.name = ["conv2", "conv3", "conv4", "conv5"]
       ∧ resnet101_plan.map Stage.name = ["conv2", "conv3", "conv4", "conv5"]
       ∧ resnet152_plan.map Stage.name = ["conv2", "conv3", "conv4", "conv5"]
       ∧ resnet50v2_plan.map Stage.name = ["conv2", "conv3", "conv4", "conv5"]
       ∧ resnet101v2_plan.map Stage.name = ["conv2", "conv3", "conv4", "conv5"]
       ∧ resnet152v2_plan.map Stage.name = ["conv2", "conv3", "conv4", "conv5"]) := by
  refine ⟨⟨?_, ?_, ?_, ?_, ?_, ?_, ?_, ?_⟩,
    ⟨rfl, rfl, rfl, rfl, rfl, rfl, rfl, rfl⟩, ⟨rfl, rfl, rfl, rfl, rfl, rfl, rfl, rfl⟩⟩
  all_goals
    simp [stack_fn_resnet18, stack_fn_resnet34, stack_fn_resnet50, stack_fn_resnet101,
      stack_fn_resnet152, stack_fn_resnet50v2, stack_fn_resnet101v2, stack_fn_resnet152v2,
      runPlan, resnet18_plan, resnet34_plan, resnet50_plan, resnet101_plan, resnet152_plan,
      resnet50v2_plan, resnet101v2_plan, resnet152v2_plan, stageStack0, stageStack1,
      stageStack2]
